import Mathlib

/-!
# Verification of the tinyFediPub federation core

A shallow embedding, in Lean 4, of the HTTP-signature layer
(`http_signatures.py`), the delivery engine (`activity_delivery.py`) and the
inbox processing pipeline (`activity_processor.py`) of the tinyFediPub
repository, together with theorems settling the specification claims about
them.

Conventions of the embedding:
* Python byte strings are `List Nat`; Python `str` is Lean `String`.
* Python dictionaries (request headers, parsed signature components) are
  association lists with Python `dict` semantics (unique keys; assignment
  replaces in place, otherwise appends; lookup is by key).
* Library cryptography (`hashlib`, `cryptography`, `base64`), the network key
  fetch and wall-clock time are parameters of the embedding, collected in
  `SigEnv`: the SHA-256 hash, base64 encode/decode, RSA sign/verify, PEM key
  loading, the actor-key lookup, RFC-2822 date parsing and the current time.
  Digest values and RSA signatures are abstracted as `Nat`.
* Python truthiness of an optional string (`if not x`) is `pyTruthy`:
  `None` and the empty string are falsy.
-/

/-- Python truthiness of an `Optional[str]`: `None` and `""` are falsy. -/
def pyTruthy : Option String → Bool
  | none => false
  | some s => !(s == "")

/-- Python `a or b` on optional strings: a falsy left operand
(`None` or `""`) falls through to the right operand. -/
def pyOrOpt (a b : Option String) : Option String :=
  match a with
  | none => b
  | some s => if s == "" then b else some s

/-- Lookup in a Python dict modelled as an association list
(first matching key; keys are unique in dicts built by the code). -/
def hget {α : Type} : List (String × α) → String → Option α
  | [], _ => none
  | p :: rest, k => if p.1 == k then some p.2 else hget rest k

/-- Python dict assignment `d[k] = v`: replace the value in place if the key
is present, otherwise append the new pair at the end. -/
def hinsert {α : Type} : List (String × α) → String → α → List (String × α)
  | [], k, v => [(k, v)]
  | p :: rest, k, v => if p.1 == k then (k, v) :: rest else p :: hinsert rest k v

/-- Lookup with last-assignment-wins semantics, for dicts built by repeated
assignment in a loop (`components[key] = value` in
`parse_signature_header`). -/
def dgetLast (l : List (String × String)) (k : String) : Option String :=
  l.foldl (fun acc p => if p.1 == k then some p.2 else acc) none

/-- Python `str.lower()` (ASCII domain, as used for header names). -/
def pyLower (s : String) : String :=
  String.mk (s.data.map Char.toLower)

/-- One step of Python `str.title()`: uppercase a letter that follows a
non-letter, lowercase a letter that follows a letter. -/
def titleMap : List Char → Bool → List Char
  | [], _ => []
  | c :: rest, prevAlpha =>
    (if prevAlpha then c.toLower else c.toUpper) :: titleMap rest c.isAlpha

/-- Python `str.title()` (ASCII domain): capitalize the first letter of every
run of letters, lowercase the rest. -/
def pyTitle (s : String) : String :=
  String.mk (titleMap s.data false)

/-- Split a character list at every character satisfying `p` (adjacent
separators produce empty groups, like `String.split`). -/
def splitChars (p : Char → Bool) : List Char → List (List Char)
  | [] => [[]]
  | c :: rest =>
    if p c then [] :: splitChars p rest
    else
      match splitChars p rest with
      | [] => [[c]]
      | g :: gs => (c :: g) :: gs

/-- Python `str.split()` with no argument: split on whitespace runs,
discarding empty pieces. -/
def pySplit (s : String) : List String :=
  ((splitChars Char.isWhitespace s.data).map String.mk).filter (fun p => !(p == ""))

/-- The external-collaborator environment of `http_signatures.py`: library
cryptography, base64, the actor-key fetch, date parsing and the clock.
Hash digests and RSA signatures are abstracted as `Nat`. -/
structure SigEnv where
  /-- `hashlib.sha256(body).digest()`, abstracted. -/
  sha256 : List Nat → Nat
  /-- `base64.b64encode`, abstracted. -/
  b64e : Nat → String
  /-- `base64.b64decode`; `none` models a raised `binascii.Error`. -/
  b64d : String → Option Nat
  /-- RSA PKCS#1 v1.5 / SHA-256 signing with a PEM private key
  (`load_pem_private_key` + `private_key.sign`): (privateKeyPem, message). -/
  rsaSign : String → String → Nat
  /-- `serialization.load_pem_public_key`; `none` models a raised load
  error. The result is the loaded key, abstracted as a `String`. -/
  loadPubKey : String → Option String
  /-- `public_key.verify` on (loadedKey, message, signature): `false` models
  a raised `InvalidSignature`. -/
  rsaVerify : String → String → Nat → Bool
  /-- `fetch_actor_public_key`: network key lookup keyId → PEM, with `none`
  for every fetch/parse failure. -/
  keyLookup : String → Option String
  /-- `email.utils.parsedate_to_datetime` as seconds since the epoch;
  `none` models a raised parse error. -/
  parseDate : String → Option Int
  /-- `datetime.now(timezone.utc)` in seconds since the epoch. -/
  now : Int

/-- `\w` of the regex `(\w+)="([^"]*)"` in `parse_signature_header`
(ASCII word character). -/
def isWordChar (c : Char) : Bool := c.isAlphanum || c == '_'

/-- Scanner state for `re.findall` over the pattern `(\w+)="([^"]*)"`. -/
inductive PState where
  | idle : PState
  | word : List Char → PState
  | eq : List Char → PState
  | val : List Char → List Char → PState

/-- `re.findall(r'(\w+)="([^"]*)"', s)` as a character-at-a-time scanner.
`idle` looks for the start of a match, `word` accumulates the `\w+` group,
`eq` has seen the `=` and expects the opening quote, `val` accumulates the
`[^"]*` group until the closing quote.  A committed value region is safe:
the greedy `[^"]*` always stops at the next quote, which then closes the
match, and if no quote remains no further match can start either. -/
def pstep : List Char → PState → List (String × String)
  | [], _ => []
  | c :: rest, PState.idle =>
    if isWordChar c then pstep rest (PState.word [c]) else pstep rest PState.idle
  | c :: rest, PState.word acc =>
    if isWordChar c then pstep rest (PState.word (acc ++ [c]))
    else if c == '=' then pstep rest (PState.eq acc)
    else pstep rest PState.idle
  | c :: rest, PState.eq key =>
    if c == '"' then pstep rest (PState.val key [])
    else if isWordChar c then pstep rest (PState.word [c])
    else pstep rest PState.idle
  | c :: rest, PState.val key vacc =>
    if c == '"' then (String.mk key, String.mk vacc) :: pstep rest PState.idle
    else pstep rest (PState.val key (vacc ++ [c]))

/-- `parse_signature_header`: parse the Signature header into components via
`re.findall(r'(\w+)="([^"]*)"', signature_header)`, building a dict by
repeated assignment (reading it back goes through `dgetLast`). -/
def parse_signature_header (signature_header : String) : List (String × String) :=
  pstep signature_header.data PState.idle

/-- The loop body of `build_signing_string` for one requested header name:
`(request-target)` is the lowered method and the path; any other name is
looked up with the exact, lowercase, then title-case spelling (Python `or`
chaining, so empty values fall through), and a missing or empty value
yields `"name: "`. -/
def signing_line (headers : List (String × String))
    (header_name method path : String) : String :=
  if header_name == "(request-target)" then
    "(request-target): " ++ pyLower method ++ " " ++ path
  else
    let header_value := pyOrOpt (pyOrOpt (hget headers header_name)
      (hget headers (pyLower header_name))) (hget headers (pyTitle header_name))
    match header_value with
    | some v => if v == "" then pyLower header_name ++ ": "
                else pyLower header_name ++ ": " ++ v
    | none => pyLower header_name ++ ": "

/-- `build_signing_string(headers_to_sign, method, path, headers)`: one
`signing_line` per requested header name, joined with `\n`. -/
def build_signing_string (headers_to_sign method path : String)
    (headers : List (String × String)) : String :=
  let header_list := pySplit headers_to_sign
  String.intercalate "\n"
    (header_list.map (fun header_name => signing_line headers header_name method path))

/-- `compute_digest(body)`: `"SHA-256=" + base64(sha256(body))`. -/
def compute_digest (env : SigEnv) (body : List Nat) : String :=
  "SHA-256=" ++ env.b64e (env.sha256 body)

/-- The body of `verify_signature` after the three component reads
(`keyId`, `signature`, and the `headers` list already defaulted).  Returns
`false` on a falsy keyId or signature, on key-fetch failure, on a falsy
fetched PEM, on base64 decode failure, on public-key load failure, and on
cryptographic rejection — every exception path of the source collapses to
`False`. -/
def verify_signature_core (env : SigEnv) (key_id signature_b64 : Option String)
    (headers_to_sign method path : String) (headers : List (String × String)) : Bool :=
  match key_id, signature_b64 with
  | some kid, some sigB64 =>
    if kid == "" || sigB64 == "" then false
    else
      match env.keyLookup kid with
      | none => false
      | some pem =>
        if pem == "" then false
        else
          let signing_string := build_signing_string headers_to_sign method path headers
          match env.b64d sigB64 with
          | none => false
          | some sig_bytes =>
            match env.loadPubKey pem with
            | none => false
            | some pk => env.rsaVerify pk signing_string sig_bytes
  | _, _ => false

/-- `verify_signature(signature_header, method, path, headers, body)`:
parse the Signature header, read `keyId` and `signature`, default the
signed-header list to `"(request-target) host date"`, then run the checks of
`verify_signature_core`.  (The body itself is not used by this step: it is
covered by the digest check of `verify_request`.) -/
def verify_signature (env : SigEnv) (signature_header method path : String)
    (headers : List (String × String)) : Bool :=
  verify_signature_core env
    (dgetLast (parse_signature_header signature_header) "keyId")
    (dgetLast (parse_signature_header signature_header) "signature")
    ((dgetLast (parse_signature_header signature_header) "headers").getD
      "(request-target) host date")
    method path headers

/-- `sign_request(method, path, headers, body, private_key_pem, key_id)`:
insert the body digest into the header dict, sign the canonical string over
`(request-target) host date digest content-type`, and return the mutated
header dict together with the Signature header value. -/
def sign_request (env : SigEnv) (method path : String)
    (headers : List (String × String)) (body : List Nat)
    (private_key_pem key_id : String) : List (String × String) × String :=
  let digest := compute_digest env body
  let headers2 := hinsert headers "digest" digest
  let headers_to_sign := "(request-target) host date digest content-type"
  let signing_string := build_signing_string headers_to_sign method path headers2
  let signature_b64 := env.b64e (env.rsaSign private_key_pem signing_string)
  (headers2,
    "keyId=\"" ++ key_id ++ "\",algorithm=\"hs2019\",headers=\"" ++
      headers_to_sign ++ "\",signature=\"" ++ signature_b64 ++ "\"")

/-- `verify_digest(digest_header, body)`: recompute the digest and compare
for string equality. -/
def verify_digest (env : SigEnv) (digest_header : String) (body : List Nat) : Bool :=
  digest_header == compute_digest env body

/-- `verify_date(date_header, max_age_seconds)`: parse the RFC-2822 date
(a parse error yields `false`), and accept iff `|now - date| ≤ max_age`. -/
def verify_date (env : SigEnv) (date_header : String) (max_age_seconds : Int) : Bool :=
  match env.parseDate date_header with
  | none => false
  | some request_time =>
    let age := env.now - request_time
    if |age| ≤ max_age_seconds then true else false

/-- Step 1 of `verify_request`: if a `digest`/`Digest` header is present and
nonempty, it must match the body; its absence is only a warning. -/
def digest_step (env : SigEnv) (headers : List (String × String))
    (body : List Nat) : Bool :=
  match pyOrOpt (hget headers "digest") (hget headers "Digest") with
  | none => true
  | some d => if d == "" then true else verify_digest env d body

/-- Step 2 of `verify_request`: if a `date`/`Date` header is present and
nonempty, it must pass `verify_date` with the default 300-second window;
its absence is only a warning. -/
def date_step (env : SigEnv) (headers : List (String × String)) : Bool :=
  match pyOrOpt (hget headers "date") (hget headers "Date") with
  | none => true
  | some d => if d == "" then true else verify_date env d 300

/-- `verify_request(signature_header, method, path, headers, body)`:
digest check, then date check, then signature check; the first failure
returns `false`. -/
def verify_request (env : SigEnv) (signature_header method path : String)
    (headers : List (String × String)) (body : List Nat) : Bool :=
  if !(digest_step env headers body) then false
  else if !(date_step env headers) then false
  else verify_signature env signature_header method path headers

example : parse_signature_header "keyId=\"https://e.org/a#k\",headers=\"(request-target) host\",signature=\"QUJD\"" =
    [("keyId", "https://e.org/a#k"), ("headers", "(request-target) host"), ("signature", "QUJD")] := by
  decide

example : build_signing_string "(request-target) host date" "POST" "/inbox"
    [("Host", "e.org"), ("date", "D")] =
    "(request-target): post /inbox\nhost: e.org\ndate: D" := by
  decide

/-! ## Lemmas about the Signature-header scanner -/

theorem pstep_word_run (w : List Char) (hw : ∀ c ∈ w, isWordChar c = true) :
    ∀ (t : List Char) (acc : List Char),
      pstep (w ++ t) (PState.word acc) = pstep t (PState.word (acc ++ w)) := by
  induction w with
  | nil => intro t acc; simp
  | cons c w ih =>
    intro t acc
    have hc : isWordChar c = true := hw c (List.mem_cons_self c w)
    have : pstep ((c :: w) ++ t) (PState.word acc) = pstep (w ++ t) (PState.word (acc ++ [c])) := by
      simp [pstep, hc]
    rw [this, ih (fun d hd => hw d (List.mem_cons_of_mem c hd)) t (acc ++ [c])]
    simp

theorem pstep_idle_word {c : Char} (h : isWordChar c = true) (t : List Char) :
    pstep (c :: t) PState.idle = pstep t (PState.word [c]) := by
  simp [pstep, h]

theorem pstep_word_eq (acc : List Char) (t : List Char) :
    pstep ('=' :: t) (PState.word acc) = pstep t (PState.eq acc) := by
  have h1 : isWordChar '=' = false := by decide
  simp [pstep, h1]

theorem pstep_eq_quote (key : List Char) (t : List Char) :
    pstep ('"' :: t) (PState.eq key) = pstep t (PState.val key []) := by
  simp [pstep]

theorem pstep_val_run (v : List Char) (hv : ∀ c ∈ v, ¬(c = '"')) :
    ∀ (t key vacc : List Char),
      pstep (v ++ '"' :: t) (PState.val key vacc) =
        (String.mk key, String.mk (vacc ++ v)) :: pstep t PState.idle := by
  induction v with
  | nil => intro t key vacc; simp [pstep]
  | cons c v ih =>
    intro t key vacc
    have hc : ¬(c = '"') := hv c (List.mem_cons_self c v)
    have hcb : (c == '"') = false := by simp [hc]
    have h2 : pstep ((c :: v) ++ '"' :: t) (PState.val key vacc) =
        pstep (v ++ '"' :: t) (PState.val key (vacc ++ [c])) := by
      simp [pstep, hcb]
    rw [h2, ih (fun d hd => hv d (List.mem_cons_of_mem c hd)) t key (vacc ++ [c])]
    simp

theorem pstep_component (kname v t : List Char)
    (hk : kname ≠ []) (hkw : ∀ c ∈ kname, isWordChar c = true)
    (hv : ∀ c ∈ v, ¬(c = '"')) :
    pstep (kname ++ ('=' :: '"' :: (v ++ '"' :: t))) PState.idle =
      (String.mk kname, String.mk v) :: pstep t PState.idle := by
  match kname, hk with
  | c :: kr, _ =>
    have hc : isWordChar c = true := hkw c (List.mem_cons_self c kr)
    rw [List.cons_append, pstep_idle_word hc,
      pstep_word_run kr (fun d hd => hkw d (List.mem_cons_of_mem c hd)),
      pstep_word_eq, pstep_eq_quote, pstep_val_run v hv]
    simp

theorem pstep_comma (t : List Char) :
    pstep (',' :: t) PState.idle = pstep t PState.idle := by
  have h1 : isWordChar ',' = false := by decide
  simp [pstep, h1]

def mkSigHeader (key_id headers_to_sign signature_b64 : String) : String :=
  "keyId=\"" ++ key_id ++ "\",algorithm=\"hs2019\",headers=\"" ++
    headers_to_sign ++ "\",signature=\"" ++ signature_b64 ++ "\""

theorem parse_mkSigHeader (kid hts sig : String)
    (h1 : ∀ c ∈ kid.data, ¬(c = '"'))
    (h2 : ∀ c ∈ hts.data, ¬(c = '"'))
    (h3 : ∀ c ∈ sig.data, ¬(c = '"')) :
    parse_signature_header (mkSigHeader kid hts sig) =
      [("keyId", kid), ("algorithm", "hs2019"), ("headers", hts), ("signature", sig)] := by
  have e1 : ("keyId=\"" : String).data = ['k', 'e', 'y', 'I', 'd', '=', '"'] := rfl
  have e2 : ("\",algorithm=\"hs2019\",headers=\"" : String).data =
      ['"', ',', 'a', 'l', 'g', 'o', 'r', 'i', 't', 'h', 'm', '=', '"', 'h', 's', '2', '0',
        '1', '9', '"', ',', 'h', 'e', 'a', 'd', 'e', 'r', 's', '=', '"'] := rfl
  have e3 : ("\",signature=\"" : String).data =
      ['"', ',', 's', 'i', 'g', 'n', 'a', 't', 'u', 'r', 'e', '=', '"'] := rfl
  have e4 : ("\"" : String).data = ['"'] := rfl
  have e5 : ("hs2019" : String).data = ['h', 's', '2', '0', '1', '9'] := rfl
  have hdata : (mkSigHeader kid hts sig).data =
      ['k', 'e', 'y', 'I', 'd'] ++ ('=' :: '"' :: (kid.data ++ '"' ::
        (',' :: (['a', 'l', 'g', 'o', 'r', 'i', 't', 'h', 'm'] ++ ('=' :: '"' ::
          (("hs2019" : String).data ++ '"' ::
          (',' :: (['h', 'e', 'a', 'd', 'e', 'r', 's'] ++ ('=' :: '"' :: (hts.data ++ '"' ::
            (',' :: (['s', 'i', 'g', 'n', 'a', 't', 'u', 'r', 'e'] ++ ('=' :: '"' ::
              (sig.data ++ '"' :: ([] : List Char))))))))))))))) := by
    simp [mkSigHeader, String.data_append, e1, e2, e3, e4, e5]
  unfold parse_signature_header
  rw [hdata]
  rw [pstep_component ['k', 'e', 'y', 'I', 'd'] kid.data _ (by simp) (by decide) h1]
  rw [pstep_comma]
  rw [pstep_component ['a', 'l', 'g', 'o', 'r', 'i', 't', 'h', 'm'] ("hs2019" : String).data _
    (by simp) (by decide) (by decide)]
  rw [pstep_comma]
  rw [pstep_component ['h', 'e', 'a', 'd', 'e', 'r', 's'] hts.data _ (by simp) (by decide) h2]
  rw [pstep_comma]
  rw [pstep_component ['s', 'i', 'g', 'n', 'a', 't', 'u', 'r', 'e'] sig.data _
    (by simp) (by decide) h3]
  simp [pstep]

/-! ## Claim C3: freshness boundary of `verify_date` -/

/-- C3: with the default 300-second window, `verify_date` accepts every
parseable Date header whose absolute distance from the current time is at
most 300 seconds (in particular exactly 300s in the past), and rejects a
date 301 seconds in the past and a date 301 seconds in the future. -/
theorem verify_date_freshness_boundary (env : SigEnv) (d : String) (t : Int)
    (h : env.parseDate d = some t) :
    (|env.now - t| ≤ 300 → verify_date env d 300 = true) ∧
    (env.now - t = 301 → verify_date env d 300 = false) ∧
    (t - env.now = 301 → verify_date env d 300 = false) := by
  refine ⟨fun hle => ?_, fun hpast => ?_, fun hfut => ?_⟩
  · simp [verify_date, h, hle]
  · have : ¬(|env.now - t| ≤ 300) := by rw [hpast]; decide
    simp [verify_date, h, this]
  · have h2 : env.now - t = -301 := by omega
    have : ¬(|env.now - t| ≤ 300) := by rw [h2]; decide
    simp [verify_date, h, this]

/-- A concrete clock for exercising `verify_date`: the current time is
1000, and the three date strings parse to 300s past, 301s past and 301s
in the future. -/
def dateEnv : SigEnv where
  sha256 := fun _ => 0
  b64e := fun _ => ""
  b64d := fun _ => none
  rsaSign := fun _ _ => 0
  loadPubKey := fun _ => none
  rsaVerify := fun _ _ _ => false
  keyLookup := fun _ => none
  parseDate := fun s =>
    if s == "past300" then some 700
    else if s == "past301" then some 699
    else if s == "future301" then some 1301
    else none
  now := 1000

/-- Witness for C3 at the boundary instants. -/
theorem verify_date_freshness_boundary_witness :
    verify_date dateEnv "past300" 300 = true ∧
    verify_date dateEnv "past301" 300 = false ∧
    verify_date dateEnv "future301" 300 = false :=
  ⟨(verify_date_freshness_boundary dateEnv "past300" 700 rfl).1 (by decide),
   (verify_date_freshness_boundary dateEnv "past301" 699 rfl).2.1 (by decide),
   (verify_date_freshness_boundary dateEnv "future301" 1301 rfl).2.2 (by decide)⟩

/-! ## Claim C4: canonicalization and header-name casing -/

theorem intercalate_single (x : String) : String.intercalate "\n" [x] = x := rfl

theorem build_single (m p n : String) (hs : List (String × String))
    (hsplit : pySplit n = [n]) :
    build_signing_string n m p hs = signing_line hs n m p := by
  unfold build_signing_string
  rw [hsplit]
  simp [intercalate_single]

/-- The casing counterexample: a map keyed `host` and a map keyed `HOST`
are equal up to key casing, yet `build_signing_string` emits the value for
the first and an empty value for the second (the lookup only tries the
exact, lowercase and title-case spellings of the queried name). -/
theorem build_signing_string_casing_counterexample :
    build_signing_string "host" "POST" "/inbox" [("host", "v")] ≠
      build_signing_string "host" "POST" "/inbox" [("HOST", "v")] := by
  decide

/-- C4 (amended): for a signed-header list consisting of one name `n`, the
signing string is the same whether the single-entry header map stores the
value under `n` itself, under `n` lowercased, or under `n` title-cased. -/
theorem build_signing_string_casing (m p n v k : String)
    (hsplit : pySplit n = [n])
    (hk : k = n ∨ k = pyLower n ∨ k = pyTitle n) :
    build_signing_string n m p [(k, v)] = build_signing_string n m p [(n, v)] := by
  rw [build_single m p n _ hsplit, build_single m p n _ hsplit]
  unfold signing_line
  by_cases hrt : (n == "(request-target)") = true
  · simp [hrt]
  · simp only [hrt, Bool.false_eq_true, if_false]
    by_cases hv : v = ""
    · subst hv
      have fall : ∀ (b : Bool) (y : Option String),
          pyOrOpt (if b then some "" else none) y = y := by
        intro b y; cases b <;> simp [pyOrOpt]
      have line : ∀ k' : String,
          (match pyOrOpt (pyOrOpt (hget [(k', "")] n) (hget [(k', "")] (pyLower n)))
              (hget [(k', "")] (pyTitle n)) with
            | some w => if w == "" then pyLower n ++ ": " else pyLower n ++ ": " ++ w
            | none => pyLower n ++ ": ") = pyLower n ++ ": " := by
        intro k'
        have g1 : hget [(k', "")] n = if (k' == n) then some "" else none := by
          simp [hget]
        have g2 : hget [(k', "")] (pyLower n) =
            if (k' == pyLower n) then some "" else none := by
          simp [hget]
        have g3 : hget [(k', "")] (pyTitle n) =
            if (k' == pyTitle n) then some "" else none := by
          simp [hget]
        rw [g1, g2, g3, fall, fall]
        cases hb : (k' == pyTitle n) <;> simp
      rw [line k, line n]
    · have hvb : (v == "") = false := by simp [hv]
      have key : ∀ k' : String, (k' = n ∨ k' = pyLower n ∨ k' = pyTitle n) →
          pyOrOpt (pyOrOpt (hget [(k', v)] n) (hget [(k', v)] (pyLower n)))
            (hget [(k', v)] (pyTitle n)) = some v := by
        intro k' hk'
        rcases hk' with h | h | h
        · subst h
          simp [hget, pyOrOpt, hvb]
        · subst h
          by_cases hln : (pyLower n == n) = true
          · have : pyLower n = n := eq_of_beq hln
            rw [this]; simp [hget, pyOrOpt, hvb]
          · simp only [hget, hln, Bool.false_eq_true, if_false]
            simp [pyOrOpt, hvb]
        · subst h
          by_cases htn : (pyTitle n == n) = true
          · have : pyTitle n = n := eq_of_beq htn
            rw [this]; simp [hget, pyOrOpt, hvb]
          · by_cases htl : (pyTitle n == pyLower n) = true
            · simp only [hget, htn, htl, Bool.false_eq_true, if_false, if_true]
              simp [pyOrOpt, hvb]
            · simp only [hget, htn, htl, Bool.false_eq_true, if_false]
              simp [pyOrOpt, hvb]
      rw [key k hk, key n (Or.inl rfl)]

/-- Witness for the amended C4: querying `Host` finds the value whether the
map is keyed `host` (lowercase) or `Host` (exact). -/
theorem build_signing_string_casing_witness :
    build_signing_string "Host" "POST" "/inbox" [("host", "v")] =
      build_signing_string "Host" "POST" "/inbox" [("Host", "v")] :=
  build_signing_string_casing "POST" "/inbox" "Host" "v" "host" (by decide)
    (Or.inr (Or.inl (by decide)))

/-! ## Claim C8: failure modes of `verify_signature` -/

/-- C8: `verify_signature` returns `false` when the parsed Signature header
lacks a `keyId` or a `signature` component; when the `headers` component is
absent it verifies against the default list `(request-target) host date`;
and each modelled exception path — key-fetch failure, malformed base64,
public-key load failure — as well as cryptographic rejection yields `false`
rather than an exception (the final equation reduces the success case to
the bare `rsaVerify` outcome). -/
theorem verify_signature_failure_modes (env : SigEnv) (s m p : String)
    (h : List (String × String)) :
    (dgetLast (parse_signature_header s) "keyId" = none →
      verify_signature env s m p h = false) ∧
    (dgetLast (parse_signature_header s) "signature" = none →
      verify_signature env s m p h = false) ∧
    (dgetLast (parse_signature_header s) "headers" = none →
      verify_signature env s m p h =
        verify_signature_core env (dgetLast (parse_signature_header s) "keyId")
          (dgetLast (parse_signature_header s) "signature")
          "(request-target) host date" m p h) ∧
    (∀ kid, dgetLast (parse_signature_header s) "keyId" = some kid →
      env.keyLookup kid = none → verify_signature env s m p h = false) ∧
    (∀ kid sb pem, dgetLast (parse_signature_header s) "keyId" = some kid →
      dgetLast (parse_signature_header s) "signature" = some sb →
      env.keyLookup kid = some pem → env.b64d sb = none →
      verify_signature env s m p h = false) ∧
    (∀ kid sb pem sigN,
      dgetLast (parse_signature_header s) "keyId" = some kid → ¬(kid = "") →
      dgetLast (parse_signature_header s) "signature" = some sb → ¬(sb = "") →
      env.keyLookup kid = some pem → ¬(pem = "") →
      env.b64d sb = some sigN → env.loadPubKey pem = none →
      verify_signature env s m p h = false) ∧
    (∀ kid sb pem pk sigN,
      dgetLast (parse_signature_header s) "keyId" = some kid → ¬(kid = "") →
      dgetLast (parse_signature_header s) "signature" = some sb → ¬(sb = "") →
      env.keyLookup kid = some pem → ¬(pem = "") →
      env.b64d sb = some sigN → env.loadPubKey pem = some pk →
      verify_signature env s m p h =
        env.rsaVerify pk
          (build_signing_string
            ((dgetLast (parse_signature_header s) "headers").getD
              "(request-target) host date") m p h)
          sigN) := by
  refine ⟨?_, ?_, ?_, ?_, ?_, ?_, ?_⟩
  · intro hk
    simp [verify_signature, hk, verify_signature_core]
  · intro hs
    unfold verify_signature verify_signature_core
    rw [hs]
    cases dgetLast (parse_signature_header s) "keyId" <;> simp
  · intro hh
    simp [verify_signature, hh]
  · intro kid hk hlk
    unfold verify_signature verify_signature_core
    rw [hk]
    cases hdg : dgetLast (parse_signature_header s) "signature" with
    | none => simp
    | some sb =>
      by_cases hke : (kid == "") = true
      · simp [hke]
      · simp only [hke, hlk]
        simp
  · intro kid sb pem hk hs2 hlk hb
    unfold verify_signature verify_signature_core
    rw [hk, hs2]
    by_cases hke : (kid == "") = true
    · simp [hke]
    · by_cases hse : (sb == "") = true
      · simp [hke, hse]
      · by_cases hpe : (pem == "") = true
        · simp [hke, hse, hlk, hpe]
        · simp [hke, hse, hlk, hpe, hb]
  · intro kid sb pem sigN hk hke hs2 hse hlk hpe hb hlp
    have hkeb : (kid == "") = false := by simp [hke]
    have hseb : (sb == "") = false := by simp [hse]
    have hpeb : (pem == "") = false := by simp [hpe]
    unfold verify_signature verify_signature_core
    rw [hk, hs2]
    simp [hkeb, hseb, hlk, hpeb, hb, hlp]
  · intro kid sb pem pk sigN hk hke hs2 hse hlk hpe hb hlp
    have hkeb : (kid == "") = false := by simp [hke]
    have hseb : (sb == "") = false := by simp [hse]
    have hpeb : (pem == "") = false := by simp [hpe]
    unfold verify_signature verify_signature_core
    rw [hk, hs2]
    simp [hkeb, hseb, hlk, hpeb, hb, hlp]

/-- A concrete environment for exercising the failure modes of
`verify_signature`: key `K1` resolves and loads, `K2` resolves to a PEM
that fails to load, any other keyId fails to fetch; only the base64 text
`GOOD` decodes; the RSA check itself always rejects. -/
def failEnv : SigEnv where
  sha256 := fun _ => 0
  b64e := fun _ => ""
  b64d := fun s => if s == "GOOD" then some 7 else none
  rsaSign := fun _ _ => 0
  loadPubKey := fun pem => if pem == "PEM" then some "LK" else none
  rsaVerify := fun _ _ _ => false
  keyLookup := fun k =>
    if k == "K1" then some "PEM" else if k == "K2" then some "PEM2" else none
  parseDate := fun _ => none
  now := 0

/-- Witness for C8: each failure mode exercised on a concrete header. -/
theorem verify_signature_failure_modes_witness :
    verify_signature failEnv "signature=\"GOOD\"" "POST" "/inbox" [] = false ∧
    verify_signature failEnv "keyId=\"K1\"" "POST" "/inbox" [] = false ∧
    verify_signature failEnv "keyId=\"K1\",signature=\"GOOD\"" "POST" "/inbox" [] =
      verify_signature_core failEnv (some "K1") (some "GOOD")
        "(request-target) host date" "POST" "/inbox" [] ∧
    verify_signature failEnv "keyId=\"KX\",signature=\"GOOD\"" "POST" "/inbox" [] = false ∧
    verify_signature failEnv "keyId=\"K1\",signature=\"BAD\"" "POST" "/inbox" [] = false ∧
    verify_signature failEnv "keyId=\"K2\",signature=\"GOOD\"" "POST" "/inbox" [] = false ∧
    verify_signature failEnv "keyId=\"K1\",signature=\"GOOD\"" "POST" "/inbox" [] =
      failEnv.rsaVerify "LK"
        (build_signing_string "(request-target) host date" "POST" "/inbox" []) 7 := by
  refine ⟨?_, ?_, ?_, ?_, ?_, ?_, ?_⟩
  · exact (verify_signature_failure_modes failEnv "signature=\"GOOD\"" "POST" "/inbox" []).1
      (by decide)
  · exact (verify_signature_failure_modes failEnv "keyId=\"K1\"" "POST" "/inbox" []).2.1
      (by decide)
  · have h3 := (verify_signature_failure_modes failEnv "keyId=\"K1\",signature=\"GOOD\""
      "POST" "/inbox" []).2.2.1 (by decide)
    rw [h3]
    have e1 : dgetLast (parse_signature_header "keyId=\"K1\",signature=\"GOOD\"")
        "keyId" = some "K1" := by decide
    have e2 : dgetLast (parse_signature_header "keyId=\"K1\",signature=\"GOOD\"")
        "signature" = some "GOOD" := by decide
    rw [e1, e2]
  · exact (verify_signature_failure_modes failEnv "keyId=\"KX\",signature=\"GOOD\""
      "POST" "/inbox" []).2.2.2.1 "KX" (by decide) (by decide)
  · exact (verify_signature_failure_modes failEnv "keyId=\"K1\",signature=\"BAD\""
      "POST" "/inbox" []).2.2.2.2.1 "K1" "BAD" "PEM" (by decide) (by decide)
      (by decide) (by decide)
  · exact (verify_signature_failure_modes failEnv "keyId=\"K2\",signature=\"GOOD\""
      "POST" "/inbox" []).2.2.2.2.2.1 "K2" "GOOD" "PEM2" 7 (by decide) (by decide)
      (by decide) (by decide) (by decide) (by decide) (by decide) (by decide)
  · have h7 := (verify_signature_failure_modes failEnv "keyId=\"K1\",signature=\"GOOD\""
      "POST" "/inbox" []).2.2.2.2.2.2 "K1" "GOOD" "PEM" "LK" 7 (by decide) (by decide)
      (by decide) (by decide) (by decide) (by decide) (by decide) (by decide)
    rw [h7]
    have e3 : dgetLast (parse_signature_header "keyId=\"K1\",signature=\"GOOD\"")
        "headers" = none := by decide
    rw [e3]
    rfl

/-! ## Claim C1: sign/verify round trip and digest tampering -/

theorem string_data_inj (x y : String) (h : x.data = y.data) : x = y := by
  cases x; cases y; exact congrArg String.mk h

theorem str_cancel_left (p x y : String) (h : p ++ x = p ++ y) : x = y := by
  have hd := congrArg String.data h
  simp only [String.data_append] at hd
  exact string_data_inj x y (List.append_cancel_left hd)

theorem sha_pre_ne (x : String) : ¬("SHA-256=" ++ x = "") := by
  intro h
  have hd := congrArg String.data h
  simp [String.data_append] at hd

theorem pyOrOpt_some (d : String) (y : Option String) (hd : ¬(d = "")) :
    pyOrOpt (some d) y = some d := by
  simp [pyOrOpt, hd]

theorem hget_hinsert_self {α : Type} (m : List (String × α)) (k : String) (v : α) :
    hget (hinsert m k v) k = some v := by
  induction m with
  | nil => simp [hget, hinsert]
  | cons p rest ih =>
    by_cases h : (p.1 == k) = true
    · simp [hget, hinsert, h]
    · simp [hget, hinsert, h, ih]

theorem hget_hinsert_ne {α : Type} (m : List (String × α)) (k k2 : String) (v : α)
    (h : ¬(k = k2)) : hget (hinsert m k v) k2 = hget m k2 := by
  have hb : (k == k2) = false := by simp [h]
  induction m with
  | nil => simp [hget, hinsert, hb]
  | cons p rest ih =>
    by_cases hp : (p.1 == k) = true
    · have hp2 : p.1 = k := eq_of_beq hp
      simp [hget, hinsert, hp, hp2, hb]
    · simp [hget, hinsert, hp, ih]

theorem dgetLast_quad (a b c d : String) :
    dgetLast [("keyId", a), ("algorithm", b), ("headers", c), ("signature", d)]
      "keyId" = some a ∧
    dgetLast [("keyId", a), ("algorithm", b), ("headers", c), ("signature", d)]
      "headers" = some c ∧
    dgetLast [("keyId", a), ("algorithm", b), ("headers", c), ("signature", d)]
      "signature" = some d := by
  refine ⟨?_, ?_, ?_⟩ <;> simp [dgetLast]

/-- The digest entry inserted by `sign_request` is found by the digest step
of `verify_request`, and matches the signed body. -/
theorem digest_step_after_sign (env : SigEnv) (headers : List (String × String))
    (body : List Nat) :
    digest_step env (hinsert headers "digest" (compute_digest env body)) body = true := by
  have hne : ¬(compute_digest env body = "") := sha_pre_ne _
  have hg : hget (hinsert headers "digest" (compute_digest env body)) "digest" =
      some (compute_digest env body) := hget_hinsert_self _ _ _
  have hnb : (compute_digest env body == "") = false := by simp [hne]
  unfold digest_step
  rw [hg, pyOrOpt_some _ _ hne]
  simp [verify_digest, hnb]

/-- After tampering with the body, the digest step fails whenever the
digests of the two bodies differ (the collision-freeness of SHA-256,
assumed pointwise). -/
theorem digest_step_tampered (env : SigEnv) (headers : List (String × String))
    (body body2 : List Nat)
    (hcoll : ¬(env.b64e (env.sha256 body2) = env.b64e (env.sha256 body))) :
    digest_step env (hinsert headers "digest" (compute_digest env body)) body2 = false := by
  have hne : ¬(compute_digest env body = "") := sha_pre_ne _
  have hg : hget (hinsert headers "digest" (compute_digest env body)) "digest" =
      some (compute_digest env body) := hget_hinsert_self _ _ _
  have hnb : (compute_digest env body == "") = false := by simp [hne]
  have hdiff : ¬(compute_digest env body = compute_digest env body2) := by
    intro h
    exact hcoll (str_cancel_left "SHA-256=" _ _ h).symm
  have hdb : (compute_digest env body == compute_digest env body2) = false := by
    simp [hdiff]
  unfold digest_step
  rw [hg, pyOrOpt_some _ _ hne]
  simp [verify_digest, hnb, hdb]

/-- C1 (amended): signing then verifying over the same method, path,
mutated header map and body succeeds, provided the signer's keyId is
nonempty and quote-free, the key lookup resolves it to a nonempty PEM that
loads, base64 round-trips (producing nonempty quote-free text), the RSA
pair verifies what it signs, and the headers' date entry passes the
freshness check at verification time; and if the body is changed at one
position so that its digest encoding differs, the digest check inside
`verify_request` — and hence `verify_request` itself — returns `false`. -/
theorem sign_then_verify (env : SigEnv) (method path : String)
    (headers : List (String × String)) (body : List Nat) (sk kid pem lk : String)
    (hkid : ¬(kid = ""))
    (hkidq : ∀ c ∈ kid.data, ¬(c = '"'))
    (hlookup : env.keyLookup kid = some pem)
    (hpem : ¬(pem = ""))
    (hload : env.loadPubKey pem = some lk)
    (hb64ne : ∀ n : Nat, ¬(env.b64e n = ""))
    (hb64q : ∀ n : Nat, ∀ c ∈ (env.b64e n).data, ¬(c = '"'))
    (hb64d : ∀ n : Nat, env.b64d (env.b64e n) = some n)
    (hverify : ∀ msg : String, env.rsaVerify lk msg (env.rsaSign sk msg) = true)
    (hdate : date_step env (sign_request env method path headers body sk kid).1 = true) :
    verify_request env (sign_request env method path headers body sk kid).2
      method path (sign_request env method path headers body sk kid).1 body = true ∧
    (∀ (i x : Nat) (body2 : List Nat), i < body.length → body2 = body.set i x →
      ¬(env.b64e (env.sha256 body2) = env.b64e (env.sha256 body)) →
      digest_step env (sign_request env method path headers body sk kid).1 body2 = false ∧
      verify_request env (sign_request env method path headers body sk kid).2
        method path (sign_request env method path headers body sk kid).1 body2 = false) := by
  have hdr_eq : (sign_request env method path headers body sk kid).1 =
      hinsert headers "digest" (compute_digest env body) := rfl
  constructor
  · have hds : digest_step env (sign_request env method path headers body sk kid).1
        body = true := by
      rw [hdr_eq]; exact digest_step_after_sign env headers body
    have hsig : verify_signature env (sign_request env method path headers body sk kid).2
        method path (sign_request env method path headers body sk kid).1 = true := by
      have hhdr : (sign_request env method path headers body sk kid).2 =
          mkSigHeader kid "(request-target) host date digest content-type"
            (env.b64e (env.rsaSign sk (build_signing_string
              "(request-target) host date digest content-type" method path
              (sign_request env method path headers body sk kid).1))) := rfl
      rw [hhdr]
      unfold verify_signature
      rw [parse_mkSigHeader kid _ _ hkidq (by decide) (hb64q _)]
      rw [(dgetLast_quad _ _ _ _).1, (dgetLast_quad _ _ _ _).2.1,
        (dgetLast_quad _ _ _ _).2.2]
      unfold verify_signature_core
      have hkb : (kid == "") = false := by simp [hkid]
      have hsb : ((env.b64e (env.rsaSign sk (build_signing_string
          "(request-target) host date digest content-type" method path
          (sign_request env method path headers body sk kid).1))) == "") = false := by
        simp [hb64ne _]
      have hpb : (pem == "") = false := by simp [hpem]
      simp only [hkb, hsb, Bool.or_self, Bool.or_false, Bool.false_or,
        Bool.false_eq_true, if_false, hlookup, hpb, Option.getD_some, hb64d, hload]
      rw [hverify]
    unfold verify_request
    rw [hds, hdate, hsig]
    rfl
  · intro i x body2 hi hset hcoll
    have hdt : digest_step env (sign_request env method path headers body sk kid).1
        body2 = false := by
      rw [hdr_eq]; exact digest_step_tampered env headers body body2 hcoll
    refine ⟨hdt, ?_⟩
    unfold verify_request
    rw [hdt]
    rfl

/-- A concrete instantiation of the abstract crypto for the round-trip
witness: the hash is the sum of the body bytes, base64 of `n` is `n` copies
of `a` followed by `b` (injective, nonempty, quote-free, decodable), the
RSA signature of a message is its length, and verification recomputes it. -/
def toyEnv : SigEnv where
  sha256 := fun b => b.sum
  b64e := fun n => String.mk (List.replicate n 'a' ++ ['b'])
  b64d := fun s => some (s.data.takeWhile (fun c => c == 'a')).length
  rsaSign := fun _ m => m.data.length
  loadPubKey := fun p => some p
  rsaVerify := fun _ m sig => sig == m.data.length
  keyLookup := fun _ => some "PK"
  parseDate := fun s => if s == "now" then some 1000 else none
  now := 1000

theorem toy_b64_ne (n : Nat) : ¬(toyEnv.b64e n = "") := by
  intro h
  have hd := congrArg String.data h
  simp [toyEnv] at hd

theorem toy_b64_quote_free (n : Nat) :
    ∀ c ∈ (toyEnv.b64e n).data, ¬(c = '"') := by
  intro c hc
  simp [toyEnv] at hc
  rcases hc with h | h
  · rcases h with ⟨hn, rfl⟩; decide
  · subst h; decide

theorem toy_b64_roundtrip (n : Nat) : toyEnv.b64d (toyEnv.b64e n) = some n := by
  show some ((String.mk (List.replicate n 'a' ++ ['b'])).data.takeWhile
    (fun c => c == 'a')).length = some n
  congr 1
  induction n with
  | zero => simp [List.takeWhile]
  | succ k ih => simp [List.replicate, List.takeWhile, ih]

theorem toy_rsa_ok (msg : String) :
    toyEnv.rsaVerify "PK" msg (toyEnv.rsaSign "SK" msg) = true := by
  simp [toyEnv]

/-- Witness for the amended C1, at a concrete request: the round trip
verifies, and flipping the byte at index 1 of the body makes the digest
check and the whole verification fail. -/
theorem sign_then_verify_witness :
    verify_request toyEnv
      (sign_request toyEnv "POST" "/inbox"
        [("host", "e.org"), ("date", "now"), ("content-type", "c")] [1, 2] "SK" "KID").2
      "POST" "/inbox"
      (sign_request toyEnv "POST" "/inbox"
        [("host", "e.org"), ("date", "now"), ("content-type", "c")] [1, 2] "SK" "KID").1
      [1, 2] = true ∧
    digest_step toyEnv
      (sign_request toyEnv "POST" "/inbox"
        [("host", "e.org"), ("date", "now"), ("content-type", "c")] [1, 2] "SK" "KID").1
      [1, 9] = false ∧
    verify_request toyEnv
      (sign_request toyEnv "POST" "/inbox"
        [("host", "e.org"), ("date", "now"), ("content-type", "c")] [1, 2] "SK" "KID").2
      "POST" "/inbox"
      (sign_request toyEnv "POST" "/inbox"
        [("host", "e.org"), ("date", "now"), ("content-type", "c")] [1, 2] "SK" "KID").1
      [1, 9] = false := by
  have h := sign_then_verify toyEnv "POST" "/inbox"
    [("host", "e.org"), ("date", "now"), ("content-type", "c")] [1, 2] "SK" "KID" "PK" "PK"
    (by decide) (by decide) rfl (by decide) rfl
    toy_b64_ne toy_b64_quote_free toy_b64_roundtrip toy_rsa_ok (by decide)
  have h2 := h.2 1 9 [1, 9] (by decide) (by decide) (by decide)
  exact ⟨h.1, h2.1, h2.2⟩

/-- An environment in which every cryptographic operation succeeds —
`rsaVerify` accepts everything, every keyId resolves and loads — but the
clock stands at 2026 while the request's Date header parses to the year
2020 (as `parsedate_to_datetime` would for the RFC-2822 string below). -/
def staleEnv : SigEnv where
  sha256 := fun _ => 1
  b64e := fun _ => "sig"
  b64d := fun _ => some 1
  rsaSign := fun _ _ => 1
  loadPubKey := fun p => some p
  rsaVerify := fun _ _ _ => true
  keyLookup := fun _ => some "PK"
  parseDate := fun s =>
    if s == "Wed, 01 Jan 2020 00:00:00 GMT" then some 1577836800 else none
  now := 1767225600

/-- The header map of the stale-date request: host, date and content-type
entries are all present, as the claim requires. -/
def staleHeaders : List (String × String) :=
  [("host", "e.org"), ("date", "Wed, 01 Jan 2020 00:00:00 GMT"),
    ("content-type", "application/activity+json")]

/-- Counterexample to C1 as stated: with a fully honest key pair and
resolving key lookup, `verify_request` still rejects the output of
`sign_request` over a header map whose date entry is stale — the
cryptographic signature check itself passes, but the date check fails, so
the round trip is not unconditional. -/
theorem sign_then_verify_counterexample :
    staleEnv.keyLookup "https://e.org/actor#main-key" = some "PK" ∧
    verify_signature staleEnv
      (sign_request staleEnv "POST" "/inbox" staleHeaders [1] "SK"
        "https://e.org/actor#main-key").2
      "POST" "/inbox"
      (sign_request staleEnv "POST" "/inbox" staleHeaders [1] "SK"
        "https://e.org/actor#main-key").1 = true ∧
    date_step staleEnv
      (sign_request staleEnv "POST" "/inbox" staleHeaders [1] "SK"
        "https://e.org/actor#main-key").1 = false ∧
    verify_request staleEnv
      (sign_request staleEnv "POST" "/inbox" staleHeaders [1] "SK"
        "https://e.org/actor#main-key").2
      "POST" "/inbox"
      (sign_request staleEnv "POST" "/inbox" staleHeaders [1] "SK"
        "https://e.org/actor#main-key").1 [1] = false := by
  refine ⟨rfl, by decide, by decide, by decide⟩

/-! ## The inbox processing pipeline (`activity_processor.py`) and the
delivery engine (`activity_delivery.py`)

The on-disk state touched by the processors — `followers.json`, the
activities directory, and the queue directory — is modelled explicitly in
`ServerState`; the queue listing is the input list of `drain`. -/

/-- The slice of `config.json` the processors read. `apNamespace` is the
`activitypub.namespace` entry; `autoAccept` is
`activitypub.get('auto_accept_follow_requests', True)` before defaulting. -/
structure Config where
  protocol : String
  domain : String
  apNamespace : String
  autoAccept : Option Bool
deriving DecidableEq

/-- `generate_base_url(config)` from `post_utils.py`. -/
def generate_base_url (cfg : Config) : String :=
  cfg.protocol ++ "://" ++ cfg.domain ++ "/" ++ cfg.apNamespace

/-- The `object` field of an activity: either a bare URL string or an
embedded dict (with an optional `type` entry, the only key the Undo
handler reads). -/
inductive ObjVal where
  | strVal : String → ObjVal
  | dictVal : Option String → ObjVal
deriving DecidableEq

/-- An inbound activity, reduced to the fields the processors read. -/
structure Activity where
  type? : Option String
  actor? : Option String
  object? : Option ObjVal
deriving DecidableEq

/-- Modelled from the spec: the followers collection rendered by
`templates.render_followers_collection` (the template itself is not under
`src/`): `{id, totalItems, items}` with `totalItems` the always-recomputed
count of `items`. -/
structure FollowersCollection where
  id : String
  totalItems : Nat
  items : List String
deriving DecidableEq

/-- Modelled from the spec: `render_followers_collection(followers_id,
followers_list)` derives `totalItems` from the list. -/
def render_followers_collection (followers_id : String)
    (followers_list : List String) : FollowersCollection :=
  { id := followers_id, totalItems := followers_list.length, items := followers_list }

/-- Modelled from the spec: the Accept activity rendered by
`templates.render_accept_activity` (not under `src/`), reduced to the
fields fixed by its caller — the local actor id and the wrapped original
Follow. -/
structure AcceptActivity where
  actor_id : String
  follow_object : Activity
deriving DecidableEq

/-- Modelled from the spec: `render_accept_activity` wraps the original
Follow as the Accept's object. -/
def render_accept_activity (actor_id : String) (follow_object : Activity) : AcceptActivity :=
  { actor_id := actor_id, follow_object := follow_object }

/-- The persistent state the processors and the delivery engine touch:
the content of `followers.json` (`none` when the file does not exist), the
Accept activities persisted to the activities directory, and the log of
actor URLs handed to `deliver_to_actor` (appended only by the delivery
engine in `activity_delivery.py`; `FollowActivityProcessor.process` never
calls it — the source marks delivery as a TODO). -/
structure ServerState where
  followersFile : Option FollowersCollection
  accepts : List AcceptActivity
  deliveries : List String
deriving DecidableEq

/-- `get_followers_list(config)` from `post_utils.py`: the `items` of
`followers.json`, or `[]` when the file is missing. -/
def get_followers_list (st : ServerState) : List String :=
  match st.followersFile with
  | none => []
  | some c => c.items

/-- `FollowActivityProcessor._add_follower`: no-op returning `False` if the
actor is already present, else append it and write the re-rendered
collection. -/
def FollowActivityProcessor.add_follower (cfg : Config) (st : ServerState)
    (actor_url : String) : Bool × ServerState :=
  let followers_list := get_followers_list st
  if actor_url ∈ followers_list then (false, st)
  else
    (true, { st with followersFile := some (render_followers_collection
      (generate_base_url cfg ++ "/followers") (followers_list ++ [actor_url])) })

/-- `FollowActivityProcessor._generate_accept_activity`: render and persist
an Accept wrapping the original Follow.  (No delivery happens here: the
source ends with a TODO for sending the Accept to the follower's inbox.) -/
def FollowActivityProcessor.generate_accept_activity (cfg : Config) (st : ServerState)
    (original_follow : Activity) : ServerState :=
  { st with accepts := st.accepts ++
      [render_accept_activity (generate_base_url cfg ++ "/actor") original_follow] }

/-- `FollowActivityProcessor.process`: fail on a missing/empty actor;
otherwise, when auto-accept is enabled, add the follower and persist an
Accept; report success either way. -/
def FollowActivityProcessor.process (cfg : Config) (st : ServerState)
    (activity : Activity) : Bool × ServerState :=
  match activity.actor? with
  | none => (false, st)
  | some actor_url =>
    if actor_url == "" then (false, st)
    else if cfg.autoAccept.getD true then
      let r := FollowActivityProcessor.add_follower cfg st actor_url
      (true, FollowActivityProcessor.generate_accept_activity cfg r.2 activity)
    else (true, st)

/-- `UndoFollowActivityProcessor._remove_follower`: `False` if absent, else
remove the first occurrence and write the re-rendered collection. -/
def UndoFollowActivityProcessor.remove_follower (cfg : Config) (st : ServerState)
    (actor_url : String) : Bool × ServerState :=
  let followers_list := get_followers_list st
  if actor_url ∈ followers_list then
    (true, { st with followersFile := some (render_followers_collection
      (generate_base_url cfg ++ "/followers") (followers_list.erase actor_url)) })
  else (false, st)

/-- `UndoFollowActivityProcessor.process`: fail on a missing/empty actor;
otherwise remove the follower (ignoring whether it was present) and report
success. -/
def UndoFollowActivityProcessor.process (cfg : Config) (st : ServerState)
    (activity : Activity) : Bool × ServerState :=
  match activity.actor? with
  | none => (false, st)
  | some actor_url =>
    if actor_url == "" then (false, st)
    else (true, (UndoFollowActivityProcessor.remove_follower cfg st actor_url).2)

/-- `UndoActivityProcessor.process`: fail on a missing/empty actor; read the
wrapped object's `type` (default `unknown`; calling `.get` on a string
object raises `AttributeError`, caught by the handler's `except` and
reported as failure); look up `PROCESSORS["Undo." + object_type]` — among
the registered keys `Follow`, `Undo`, `Undo.Follow`, the composite
`"Undo." + t` matches only `Undo.Follow`, i.e. exactly when `t = "Follow"`
— delegating on a hit and reporting handled-success otherwise. -/
def UndoActivityProcessor.process (cfg : Config) (st : ServerState)
    (activity : Activity) : Bool × ServerState :=
  match activity.actor? with
  | none => (false, st)
  | some actor_url =>
    if actor_url == "" then (false, st)
    else
      match activity.object? with
      | some (ObjVal.strVal _) => (false, st)
      | none => (true, st)
      | some (ObjVal.dictVal t?) =>
        if t?.getD "unknown" == "Follow" then
          UndoFollowActivityProcessor.process cfg st activity
        else (true, st)

/-- The registered processors (`PROCESSORS` in `activity_processor.py`). -/
inductive ProcKind where
  | follow : ProcKind
  | undo : ProcKind
  | undoFollow : ProcKind
deriving DecidableEq

/-- `PROCESSORS.get(activity_type)`. -/
def PROCESSORS_get (t : String) : Option ProcKind :=
  if t == "Follow" then some ProcKind.follow
  else if t == "Undo" then some ProcKind.undo
  else if t == "Undo.Follow" then some ProcKind.undoFollow
  else none

/-- `processor.process(activity, filename)` dispatched on the registry hit. -/
def run_processor (cfg : Config) (st : ServerState) (k : ProcKind)
    (activity : Activity) : Bool × ServerState :=
  match k with
  | ProcKind.follow => FollowActivityProcessor.process cfg st activity
  | ProcKind.undo => UndoActivityProcessor.process cfg st activity
  | ProcKind.undoFollow => UndoFollowActivityProcessor.process cfg st activity

/-- What resolving one queue entry yields: the parsed activity, or a load
failure (broken symlink or unreadable/invalid JSON, which the drain loop
catches). -/
inductive QueueFile where
  | ok : Activity → QueueFile
  | loadError : QueueFile
deriving DecidableEq

/-- One iteration of the drain loop of `main()` on the entry `(filename,
content)`: a load failure, a missing `type`, and an unregistered type are
failures; otherwise the registered processor decides. -/
def process_entry (cfg : Config) (st : ServerState) (e : String × QueueFile) :
    Bool × ServerState :=
  match e.2 with
  | QueueFile.loadError => (false, st)
  | QueueFile.ok a =>
    match a.type? with
    | none => (false, st)
    | some t =>
      match PROCESSORS_get t with
      | none => (false, st)
      | some k => run_processor cfg st k a

/-- The drain loop of `main()` over the queue listing snapshot: on success
the entry is unlinked and the processed counter incremented; on any failure
the entry is kept and the failure counter incremented.  Returns the final
state, the remaining queue, and the two counters. -/
def drain (cfg : Config) (st : ServerState) :
    List (String × QueueFile) → ServerState × List (String × QueueFile) × Nat × Nat
  | [] => (st, [], 0, 0)
  | e :: rest =>
    let pr := process_entry cfg st e
    let r := drain cfg pr.2 rest
    if pr.1 then (r.1, r.2.1, r.2.2.1 + 1, r.2.2.2)
    else (r.1, e :: r.2.1, r.2.2.1, r.2.2.2 + 1)

/-- The network side of the delivery engine: the combined outcome of
`fetch_actor_inbox` and the signed POST of `deliver_activity` for a given
actor URL (`false` for inbox-resolution failure or a failed POST). -/
structure DeliveryEnv where
  outcome : String → Bool

/-- `deliver_to_actor(activity, actor_url, config)`: resolve the inbox and
deliver; the state records the attempt in the delivery log. -/
def deliver_to_actor (denv : DeliveryEnv) (st : ServerState) (actor_url : String) :
    Bool × ServerState :=
  (denv.outcome actor_url, { st with deliveries := st.deliveries ++ [actor_url] })

/-- `deliver_to_followers(activity, config)`: read the followers list once,
then deliver to each follower in turn, recording each outcome in the
results dict (keyed by actor URL); an empty list short-circuits to `{}`. -/
def deliver_to_followers (denv : DeliveryEnv) (st : ServerState) :
    List (String × Bool) × ServerState :=
  let followers := get_followers_list st
  if followers = [] then ([], st)
  else
    followers.foldl (fun acc actor_url =>
      let r := deliver_to_actor denv acc.2 actor_url
      (hinsert acc.1 actor_url r.1, r.2)) ([], st)

/-! ## Claim C2: what the Follow handler does with the Accept -/

/-- C2 (amended): with auto-accept enabled, processing a Follow with a
nonempty actor succeeds and persists exactly one new Accept wrapping the
original Follow — but the Accept is *not* handed to the delivery engine:
the delivery log is untouched (`deliver_to_actor` is never invoked by the
Follow handler; the source marks that step as a TODO). -/
theorem follow_process_persists_accept (cfg : Config) (st : ServerState)
    (a : Activity) (actor_url : String)
    (hauto : cfg.autoAccept.getD true = true)
    (ha : a.actor? = some actor_url)
    (hne : ¬(actor_url = "")) :
    (FollowActivityProcessor.process cfg st a).1 = true ∧
    (FollowActivityProcessor.process cfg st a).2.accepts =
      st.accepts ++ [render_accept_activity (generate_base_url cfg ++ "/actor") a] ∧
    (FollowActivityProcessor.process cfg st a).2.deliveries = st.deliveries := by
  have hb : (actor_url == "") = false := by simp [hne]
  unfold FollowActivityProcessor.process
  rw [ha]
  by_cases hmem : actor_url ∈ get_followers_list st <;>
    simp [hb, hauto, FollowActivityProcessor.add_follower,
      FollowActivityProcessor.generate_accept_activity, hmem]

/-- The configuration and state of the C2/C5 scenarios. -/
def cfg0 : Config :=
  { protocol := "https", domain := "test.example.com",
    apNamespace := "activitypub", autoAccept := some true }

/-- An empty server state: no followers file, no activities, no deliveries. -/
def st0 : ServerState := { followersFile := none, accepts := [], deliveries := [] }

/-- The Follow activity of the C2/C5 scenarios. -/
def follow0 : Activity :=
  { type? := some "Follow", actor? := some "https://mastodon.social/users/alice",
    object? := some (ObjVal.strVal "https://test.example.com/activitypub/actor") }

/-- Counterexample to C2 as stated: the handler persists the Accept but the
delivery log stays empty — the Accept is never handed to the delivery
engine, so no delivery back to the follower's inbox happens. -/
theorem follow_process_no_delivery_counterexample :
    (FollowActivityProcessor.process cfg0 st0 follow0).1 = true ∧
    (FollowActivityProcessor.process cfg0 st0 follow0).2.accepts =
      [render_accept_activity "https://test.example.com/activitypub/actor" follow0] ∧
    (FollowActivityProcessor.process cfg0 st0 follow0).2.deliveries = [] := by
  decide

/-- Witness for the amended C2 on the concrete scenario. -/
theorem follow_process_persists_accept_witness :
    (FollowActivityProcessor.process cfg0 st0 follow0).1 = true ∧
    (FollowActivityProcessor.process cfg0 st0 follow0).2.accepts =
      st0.accepts ++ [render_accept_activity (generate_base_url cfg0 ++ "/actor") follow0] ∧
    (FollowActivityProcessor.process cfg0 st0 follow0).2.deliveries = st0.deliveries :=
  follow_process_persists_accept cfg0 st0 follow0 "https://mastodon.social/users/alice"
    (by decide) rfl (by decide)

/-! ## Claim C5: idempotent follow -/

/-- The Follow handler on an already-present actor: success, the
collection untouched, one more Accept persisted. -/
theorem follow_process_mem (cfg : Config) (st : ServerState) (a : Activity)
    (u : String)
    (hauto : cfg.autoAccept.getD true = true)
    (ha : a.actor? = some u)
    (hne : ¬(u = ""))
    (hm : u ∈ get_followers_list st) :
    FollowActivityProcessor.process cfg st a = (true, { st with
      accepts := st.accepts ++
        [render_accept_activity (generate_base_url cfg ++ "/actor") a] }) := by
  have hb : (u == "") = false := by simp [hne]
  unfold FollowActivityProcessor.process FollowActivityProcessor.add_follower
    FollowActivityProcessor.generate_accept_activity
  rw [ha]
  simp [hb, hauto, hm]

/-- The Follow handler on a fresh actor: success, the actor appended to the
collection, one more Accept persisted. -/
theorem follow_process_notmem (cfg : Config) (st : ServerState) (a : Activity)
    (u : String)
    (hauto : cfg.autoAccept.getD true = true)
    (ha : a.actor? = some u)
    (hne : ¬(u = ""))
    (hm : u ∉ get_followers_list st) :
    FollowActivityProcessor.process cfg st a = (true, { st with
      followersFile := some (render_followers_collection
        (generate_base_url cfg ++ "/followers") (get_followers_list st ++ [u])),
      accepts := st.accepts ++
        [render_accept_activity (generate_base_url cfg ++ "/actor") a] }) := by
  have hb : (u == "") = false := by simp [hne]
  unfold FollowActivityProcessor.process FollowActivityProcessor.add_follower
    FollowActivityProcessor.generate_accept_activity
  rw [ha]
  simp [hb, hauto, hm]

/-- C5: processing the same Follow twice (auto-accept on, fresh actor)
succeeds both times, leaves exactly one occurrence of the actor in the
followers items, does not change the collection on the second run, and
persists one Accept per run. -/
theorem follow_process_idempotent (cfg : Config) (st : ServerState)
    (a : Activity) (u : String)
    (hauto : cfg.autoAccept.getD true = true)
    (ha : a.actor? = some u)
    (hne : ¬(u = ""))
    (hmem : u ∉ get_followers_list st) :
    (FollowActivityProcessor.process cfg st a).1 = true ∧
    (FollowActivityProcessor.process cfg
      (FollowActivityProcessor.process cfg st a).2 a).1 = true ∧
    (get_followers_list (FollowActivityProcessor.process cfg
      (FollowActivityProcessor.process cfg st a).2 a).2).count u = 1 ∧
    (FollowActivityProcessor.process cfg
      (FollowActivityProcessor.process cfg st a).2 a).2.followersFile =
      (FollowActivityProcessor.process cfg st a).2.followersFile ∧
    (FollowActivityProcessor.process cfg
      (FollowActivityProcessor.process cfg st a).2 a).2.accepts.length =
      st.accepts.length + 2 := by
  have h1 := follow_process_notmem cfg st a u hauto ha hne hmem
  have hfl1 : get_followers_list (FollowActivityProcessor.process cfg st a).2 =
      get_followers_list st ++ [u] := by
    rw [h1]
    simp [get_followers_list, render_followers_collection]
  have hmem2 : u ∈ get_followers_list (FollowActivityProcessor.process cfg st a).2 := by
    rw [hfl1]
    exact List.mem_append_right _ (List.mem_singleton.mpr rfl)
  have h2 := follow_process_mem cfg (FollowActivityProcessor.process cfg st a).2 a u
    hauto ha hne hmem2
  refine ⟨by rw [h1], by rw [h2], ?_, ?_, ?_⟩
  · rw [h2]
    show (get_followers_list { (FollowActivityProcessor.process cfg st a).2 with
      accepts := _ }).count u = 1
    have hsame : get_followers_list { (FollowActivityProcessor.process cfg st a).2 with
        accepts := (FollowActivityProcessor.process cfg st a).2.accepts ++
          [render_accept_activity (generate_base_url cfg ++ "/actor") a] } =
        get_followers_list (FollowActivityProcessor.process cfg st a).2 := by
      simp [get_followers_list]
    rw [hsame, hfl1, List.count_append]
    have hz : (get_followers_list st).count u = 0 := by
      simp [List.count_eq_zero, hmem]
    rw [hz]
    simp
  · rw [h2]
  · rw [h2]
    show ((FollowActivityProcessor.process cfg st a).2.accepts ++ [_]).length =
      st.accepts.length + 2
    rw [List.length_append, h1]
    simp

/-- Witness for C5: alice followed twice from the empty state. -/
theorem follow_process_idempotent_witness :
    (FollowActivityProcessor.process cfg0 st0 follow0).1 = true ∧
    (FollowActivityProcessor.process cfg0
      (FollowActivityProcessor.process cfg0 st0 follow0).2 follow0).1 = true ∧
    (get_followers_list (FollowActivityProcessor.process cfg0
      (FollowActivityProcessor.process cfg0 st0 follow0).2 follow0).2).count
      "https://mastodon.social/users/alice" = 1 ∧
    (FollowActivityProcessor.process cfg0
      (FollowActivityProcessor.process cfg0 st0 follow0).2 follow0).2.followersFile =
      (FollowActivityProcessor.process cfg0 st0 follow0).2.followersFile ∧
    (FollowActivityProcessor.process cfg0
      (FollowActivityProcessor.process cfg0 st0 follow0).2 follow0).2.accepts.length =
      st0.accepts.length + 2 :=
  follow_process_idempotent cfg0 st0 follow0 "https://mastodon.social/users/alice"
    (by decide) rfl (by decide) (by decide)

/-! ## Claim C9: Undo.Follow of a non-follower -/

/-- C9: processing an Undo whose object is a Follow, for an actor not in
the followers collection, returns success and leaves the whole state —
in particular the followers file, hence its items and totalItems —
unchanged (no write occurs). -/
theorem undo_follow_nonfollower (cfg : Config) (st : ServerState)
    (a : Activity) (u : String)
    (ha : a.actor? = some u)
    (hne : ¬(u = ""))
    (hobj : a.object? = some (ObjVal.dictVal (some "Follow")))
    (hmem : u ∉ get_followers_list st) :
    UndoActivityProcessor.process cfg st a = (true, st) := by
  have hb : (u == "") = false := by simp [hne]
  unfold UndoActivityProcessor.process UndoFollowActivityProcessor.process
    UndoFollowActivityProcessor.remove_follower
  rw [ha, hobj]
  simp [hb, hmem]

/-- A state with one follower, for the C9 witness. -/
def st9 : ServerState :=
  { followersFile := some (render_followers_collection
      "https://test.example.com/activitypub/followers"
      ["https://mastodon.social/users/alice"]),
    accepts := [], deliveries := [] }

/-- An Undo.Follow from bob, who is not a follower. -/
def undo9 : Activity :=
  { type? := some "Undo", actor? := some "https://mastodon.social/users/bob",
    object? := some (ObjVal.dictVal (some "Follow")) }

/-- Witness for C9: unfollow by a non-follower leaves the one-follower
state untouched. -/
theorem undo_follow_nonfollower_witness :
    UndoActivityProcessor.process cfg0 st9 undo9 = (true, st9) :=
  undo_follow_nonfollower cfg0 st9 undo9 "https://mastodon.social/users/bob"
    rfl (by decide) rfl (by decide)

/-! ## Claim C10: Undo with a missing or empty actor fails -/

/-- C10: for every Undo activity whose actor is missing or empty, the Undo
handler reports failure (so the drain keeps the entry queued), whatever the
wrapped object is — even one whose type has no specific Undo handler. -/
theorem undo_missing_actor (cfg : Config) (st : ServerState) (a : Activity)
    (h : a.actor? = none ∨ a.actor? = some "") :
    (UndoActivityProcessor.process cfg st a).1 = false := by
  rcases h with h | h <;> simp [UndoActivityProcessor.process, h]

/-- Witness for C10: an actor-less Undo of a Like (no `Undo.Like` handler
registered) still fails. -/
theorem undo_missing_actor_witness :
    (UndoActivityProcessor.process cfg0 st0
      { type? := some "Undo", actor? := none,
        object? := some (ObjVal.dictVal (some "Like")) }).1 = false :=
  undo_missing_actor cfg0 st0
    { type? := some "Undo", actor? := none,
      object? := some (ObjVal.dictVal (some "Like")) } (Or.inl rfl)

/-! ## Claim C6: drain bookkeeping -/

/-- Whether a processor run reports success — a function of the activity
alone.  The Follow and Undo.Follow handlers succeed iff the actor is
present and nonempty; the Undo handler additionally fails when the wrapped
object is a bare string (the `.get` on it raises). -/
def proc_outcome (k : ProcKind) (a : Activity) : Bool :=
  match k with
  | ProcKind.follow => pyTruthy a.actor?
  | ProcKind.undoFollow => pyTruthy a.actor?
  | ProcKind.undo =>
    match a.actor? with
    | none => false
    | some u =>
      if u == "" then false
      else
        match a.object? with
        | some (ObjVal.strVal _) => false
        | _ => true

/-- Whether `main()` treats a queue entry as processed: the activity loads,
carries a registered type, and its processor reports success. -/
def entry_succeeds (e : String × QueueFile) : Bool :=
  match e.2 with
  | QueueFile.loadError => false
  | QueueFile.ok a =>
    match a.type? with
    | none => false
    | some t =>
      match PROCESSORS_get t with
      | none => false
      | some k => proc_outcome k a

/-- The success bit of every processor is independent of the server state
(and of the configuration). -/
theorem run_processor_fst (cfg : Config) (st : ServerState) (k : ProcKind)
    (a : Activity) : (run_processor cfg st k a).1 = proc_outcome k a := by
  cases k with
  | follow =>
    cases ha : a.actor? with
    | none => simp [run_processor, FollowActivityProcessor.process, proc_outcome,
        pyTruthy, ha]
    | some u =>
      by_cases hu : (u == "") = true
      · simp [run_processor, FollowActivityProcessor.process, proc_outcome,
          pyTruthy, ha, hu]
      · cases hac : cfg.autoAccept.getD true <;>
          simp [run_processor, FollowActivityProcessor.process, proc_outcome,
            pyTruthy, ha, hu, hac]
  | undoFollow =>
    cases ha : a.actor? with
    | none => simp [run_processor, UndoFollowActivityProcessor.process, proc_outcome,
        pyTruthy, ha]
    | some u =>
      by_cases hu : (u == "") = true
      · simp [run_processor, UndoFollowActivityProcessor.process, proc_outcome,
          pyTruthy, ha, hu]
      · simp [run_processor, UndoFollowActivityProcessor.process, proc_outcome,
          pyTruthy, ha, hu]
  | undo =>
    cases ha : a.actor? with
    | none => simp [run_processor, UndoActivityProcessor.process, proc_outcome, ha]
    | some u =>
      by_cases hu : (u == "") = true
      · simp [run_processor, UndoActivityProcessor.process, proc_outcome, ha, hu]
      · cases hobj : a.object? with
        | none => simp [run_processor, UndoActivityProcessor.process, proc_outcome,
            ha, hu, hobj]
        | some ov =>
          cases ov with
          | strVal s => simp [run_processor, UndoActivityProcessor.process,
              proc_outcome, ha, hu, hobj]
          | dictVal t? =>
            by_cases ht : (t?.getD "unknown" == "Follow") = true
            · simp [run_processor, UndoActivityProcessor.process, proc_outcome,
                UndoFollowActivityProcessor.process, ha, hu, hobj, ht, pyTruthy]
            · simp [run_processor, UndoActivityProcessor.process, proc_outcome,
                ha, hu, hobj, ht]

/-- The success bit of one drain iteration equals `entry_succeeds`. -/
theorem process_entry_fst (cfg : Config) (st : ServerState)
    (e : String × QueueFile) : (process_entry cfg st e).1 = entry_succeeds e := by
  cases e with
  | mk name f =>
    cases f with
    | loadError => simp [process_entry, entry_succeeds]
    | ok a =>
      cases ht : a.type? with
      | none => simp [process_entry, entry_succeeds, ht]
      | some t =>
        cases hp : PROCESSORS_get t with
        | none => simp [process_entry, entry_succeeds, ht, hp]
        | some k =>
          simp [process_entry, entry_succeeds, ht, hp, run_processor_fst]

/-- C6: in one drain pass the remaining queue is exactly the entries whose
processing failed (load failure, missing or unregistered type, or a
handler reporting failure — each entry judged by `entry_succeeds`), in
order; the failure counter counts them, and the processed counter counts
the removed ones.  The drain itself is a total function: no case raises. -/
theorem drain_queue_bookkeeping (cfg : Config) (st : ServerState)
    (entries : List (String × QueueFile)) :
    (drain cfg st entries).2.1 = entries.filter (fun e => !(entry_succeeds e)) ∧
    (drain cfg st entries).2.2.1 =
      (entries.filter (fun e => entry_succeeds e)).length ∧
    (drain cfg st entries).2.2.2 =
      (entries.filter (fun e => !(entry_succeeds e))).length := by
  induction entries generalizing st with
  | nil => simp [drain]
  | cons e rest ih =>
    have hf := process_entry_fst cfg st e
    rcases ih (process_entry cfg st e).2 with ⟨ih1, ih2, ih3⟩
    cases hs : entry_succeeds e with
    | true =>
      refine ⟨?_, ?_, ?_⟩ <;> simp [drain, hf, hs, ih1, ih2, ih3, List.filter]
    | false =>
      refine ⟨?_, ?_, ?_⟩ <;> simp [drain, hf, hs, ih1, ih2, ih3, List.filter]

/-! ## Claim C7: broadcast to followers -/

theorem hinsert_fresh {α : Type} (acc : List (String × α)) (k : String) (v : α)
    (h : hget acc k = none) : hinsert acc k v = acc ++ [(k, v)] := by
  induction acc with
  | nil => simp [hinsert]
  | cons p rest ih =>
    by_cases hp : (p.1 == k) = true
    · simp [hget, hp] at h
    · simp only [hget, hp, Bool.false_eq_true, if_false] at h
      simp [hinsert, hp, ih h]

theorem hget_append_fresh {α : Type} (acc : List (String × α)) (k u : String) (b : α)
    (h : hget acc k = none) (hne : ¬(u = k)) : hget (acc ++ [(u, b)]) k = none := by
  induction acc with
  | nil => simp [hget, hne]
  | cons p rest ih =>
    by_cases hp : (p.1 == k) = true
    · simp [hget, hp] at h
    · simp only [hget, hp, Bool.false_eq_true, if_false] at h
      simp [hget, hp, ih h]

/-- The delivery loop of `deliver_to_followers`, run over any follower
snapshot with fresh result keys: it appends one result per follower, in
order, each computed from that follower's own outcome, and logs every
attempt. -/
theorem deliver_fold (denv : DeliveryEnv) (fs : List String) :
    ∀ (acc : List (String × Bool)) (stA : ServerState),
      (∀ u ∈ fs, hget acc u = none) → fs.Nodup →
      fs.foldl (fun acc2 actor_url =>
        let r := deliver_to_actor denv acc2.2 actor_url
        (hinsert acc2.1 actor_url r.1, r.2)) (acc, stA) =
      (acc ++ fs.map (fun u => (u, denv.outcome u)),
        { stA with deliveries := stA.deliveries ++ fs }) := by
  induction fs with
  | nil => intro acc stA h hn; simp
  | cons u fs ih =>
    intro acc stA h hn
    rw [List.foldl_cons]
    have hstep : (let r := deliver_to_actor denv (acc, stA).2 u
        (hinsert (acc, stA).1 u r.1, r.2)) =
        (acc ++ [(u, denv.outcome u)],
          { stA with deliveries := stA.deliveries ++ [u] }) := by
      simp [deliver_to_actor, hinsert_fresh acc u _ (h u (List.mem_cons_self u fs))]
    rw [hstep,
      ih (acc ++ [(u, denv.outcome u)]) _ ?_ (List.Nodup.of_cons hn)]
    · simp
    · intro v hv
      have hvu : ¬(v = u) := by
        intro hvu
        subst hvu
        exact (List.nodup_cons.mp hn).1 hv
      exact hget_append_fresh acc v u (denv.outcome u)
        (h v (List.mem_cons_of_mem u hv)) (fun he => hvu he.symm)

/-- C7: `deliver_to_followers` reads the followers snapshot once and calls
the delivery for every follower in it regardless of earlier failures; with
distinct followers the result has exactly one entry per follower, keyed by
the follower and carrying that follower's own outcome, while the delivery
log records every attempt in order; the rest of the state is untouched. -/
theorem deliver_to_followers_spec (denv : DeliveryEnv) (st : ServerState)
    (hnd : (get_followers_list st).Nodup) :
    (deliver_to_followers denv st).1 =
      (get_followers_list st).map (fun u => (u, denv.outcome u)) ∧
    (deliver_to_followers denv st).2.deliveries =
      st.deliveries ++ get_followers_list st ∧
    (deliver_to_followers denv st).2.followersFile = st.followersFile ∧
    (deliver_to_followers denv st).2.accepts = st.accepts := by
  unfold deliver_to_followers
  by_cases hfs : get_followers_list st = []
  · simp [hfs]
  · have hfold := deliver_fold denv (get_followers_list st) []
      st (fun u _ => by simp [hget]) hnd
    simp only [hfs, if_false]
    rw [hfold]
    simp

/-- The delivery scenario with three followers. -/
def st7 : ServerState :=
  { followersFile := some (render_followers_collection "fid" ["u1", "u2", "u3"]),
    accepts := [], deliveries := [] }

/-- A delivery network where only the delivery to `u2` fails. -/
def denv7 : DeliveryEnv := { outcome := fun u => !(u == "u2") }

/-- Witness for C7: three followers, the second failing — a three-entry
result with exactly one `false`, and all three attempts logged. -/
theorem deliver_to_followers_spec_witness :
    (deliver_to_followers denv7 st7).1 =
      [("u1", true), ("u2", false), ("u3", true)] ∧
    (deliver_to_followers denv7 st7).2.deliveries = ["u1", "u2", "u3"] ∧
    ((deliver_to_followers denv7 st7).1.filter (fun p => !p.2)).length = 1 := by
  have h := deliver_to_followers_spec denv7 st7 (by decide)
  refine ⟨?_, ?_, ?_⟩
  · rw [h.1]; decide
  · rw [h.2.1]; decide
  · rw [h.1]; decide
